import Mathlib

/-!
Verification development for the MCP-Weather repository.

Shallow embedding of the request-coordination core: the result cache
(weather/cache.py), the upstream client (weather/provider.py), the
coordinate resolver and the tool dispatcher (server_remote.py), and the
startup validation (config.py).

Modelling conventions:
* Python floats (coordinates, timestamps, TTL) are modelled as rationals.
* The in-memory dict backing the cache is modelled as a finite partial
  map given as a function from keys to optional entries.
* Network responses and the external formatter are oracle parameters
  collected in an environment record, so every network or formatting
  outcome is quantified over.
* A Python exception is an explicit error value: a function that may
  raise returns an Except value, and the dispatcher translates errors
  caught by its two handlers into text, exactly as the source does.
-/

namespace MCPWeather

/-- Exceptions that can cross the component boundaries in the source:
ValueError (raised explicitly by provider and dispatcher code and caught
by the first handler in call_tool) and every other exception (caught by
the generic second handler). -/
inductive PyError where
  | valueError (msg : String)
  | otherError (msg : String)
deriving DecidableEq

/-- Outcome of one HTTP request, as seen by the provider code: either a
response with a status code and a (parsed) body, or an aiohttp
ClientError carrying its description. -/
inductive NetResult (α : Type) where
  | response (status : Nat) (body : α)
  | clientError (msg : String)

/-- The weather payload returned by the upstream API is opaque to the
core (only the external formatter interprets it); it is modelled as the
raw body. -/
abbrev WeatherData := String

/-- One element of the geocoding response's results array
(src/weather/provider.py, geocode_location). The latitude/longitude
fields model result.get("latitude") and result.get("longitude") of a
well-formed response; name is optional because the source defaults it to
the searched city name, and country/admin1 default to the empty string
exactly as result.get("country", "") and result.get("admin1", "") do. -/
structure GeoEntry where
  latitude : Rat
  longitude : Rat
  name : Option String
  country : String
  admin1 : String

/-- Round to the nearest integer, ties to even: the rounding applied by
Python's fixed-point float formatting, used here to model the digit
string produced by a .4f format specifier. -/
def roundHalfEven (x : Rat) : Int :=
  let f : Int := Int.floor x
  let r : Rat := x - f
  if r < 1/2 then f
  else if r > 1/2 then f + 1
  else if f % 2 = 0 then f else f + 1

/-- Model of the text produced for one coordinate by the format
specifier in f-string position {lat:.4f}: the sign character (printed
for every negative float, including one that rounds to zero) together
with the magnitude rounded to four decimal places, held as a count of
ten-thousandths. -/
def fmtDot4 (x : Rat) : Bool × Int :=
  (decide (x < 0), roundHalfEven (|x| * 10000))

/-- A cache key. The source builds the string
cache_type ++ ":" ++ lat formatted with .4f ++ ":" ++ lon formatted with .4f
(WeatherCache._make_key); this structure holds the three colon-separated
components, which determine that string exactly (and are determined by
it for the colon-free cache types the dispatcher uses). -/
structure CacheKey where
  cacheType : String
  lat4 : Bool × Int
  lon4 : Bool × Int
deriving DecidableEq

/-- In-memory cache state (src/weather/cache.py, class WeatherCache):
the dict self._cache as a finite partial map from keys to
(timestamp, value) pairs, together with the per-instance TTL. -/
structure WeatherCache where
  cache : CacheKey → Option (Rat × String)
  ttl : Rat

namespace WeatherCache

/-- WeatherCache._make_key: build the cache key from the rounded
coordinates and the cache type. -/
def make_key (lat lon : Rat) (cacheType : String) : CacheKey :=
  { cacheType := cacheType, lat4 := fmtDot4 lat, lon4 := fmtDot4 lon }

/-- WeatherCache.get: look the key up; absent key gives None; a stale
entry (now - timestamp > ttl) is deleted and None is returned; a fresh
entry's value is returned. The wall clock time.time() is passed in
explicitly as now, and the possibly-updated cache state is returned
alongside the result. -/
def get (c : WeatherCache) (now : Rat) (lat lon : Rat) (cacheType : String) :
    Option String × WeatherCache :=
  let key := make_key lat lon cacheType
  match c.cache key with
  | none => (none, c)
  | some (timestamp, value) =>
    if now - timestamp > c.ttl then
      (none, { c with cache := fun k => if k = key then none else c.cache k })
    else
      (some value, c)

/-- WeatherCache.set: unconditionally store (now, value) under the key. -/
def set (c : WeatherCache) (now : Rat) (lat lon : Rat) (value : String)
    (cacheType : String) : WeatherCache :=
  let key := make_key lat lon cacheType
  { c with cache := fun k => if k = key then some (now, value) else c.cache k }

/-- WeatherCache.clear: drop every entry. -/
def clear (c : WeatherCache) : WeatherCache :=
  { c with cache := fun _ => none }

/-- WeatherCache.cleanup: delete exactly the keys whose entry satisfies
current_time - timestamp > ttl, leaving every other entry in place. -/
def cleanup (c : WeatherCache) (now : Rat) : WeatherCache :=
  { c with cache := fun k =>
      match c.cache k with
      | some (timestamp, v) =>
        if now - timestamp > c.ttl then none else some (timestamp, v)
      | none => none }

end WeatherCache

/-- The clamp applied to the requested forecast day count; the identical
expression min(max(days, 1), 16) appears in
WeatherProvider.get_forecast (src/weather/provider.py) and in the
forecast branch of call_tool (src/server_remote.py). -/
def clampDays (days : Int) : Int :=
  min (max days 1) 16

/-- Query parameters of the forecast request issued to the upstream API
(src/weather/provider.py, get_forecast): the coordinates and the
clamped forecast_days value. The constant fields (daily field list and
timezone=auto) carry no information and are omitted. -/
structure ForecastParams where
  latitude : Rat
  longitude : Rat
  forecast_days : Int
deriving DecidableEq

/-- Oracle environment of one dispatcher call: the outcome of each
external effect the source performs, quantified over in the theorems.
pyFloat models Python's float() conversion applied to a stripped string
(none models a raised ValueError); defaultCoord models the pair
float(default_parts[0]), float(default_parts[1]) obtained from
Config.DEFAULT_LOCATION; geocodeNet, currentNet and forecastNet give the
HTTP outcome of each upstream request (the weather requests as a
function of the query parameters the source puts in them); formatCurrent
and formatForecast model the external WeatherFormatter, which may raise;
now models time.time(); defaultLang models Config.DEFAULT_LANG. -/
structure Env where
  pyFloat : String → Option Rat
  defaultCoord : Rat × Rat
  geocodeNet : String → NetResult (List GeoEntry)
  currentNet : Rat → Rat → NetResult WeatherData
  forecastNet : ForecastParams → NetResult WeatherData
  formatCurrent : WeatherData → Except PyError String
  formatForecast : WeatherData → Int → Except PyError String
  now : Rat
  defaultLang : String

/-- The response-status dispatch shared verbatim by get_current_weather
and get_forecast in src/weather/provider.py: 200 parses the body, 400,
429 and 5xx raise specific ValueErrors, any other status raises a
generic one carrying the status code, and a transport ClientError is
re-raised as a network ValueError. -/
def handleWeatherResponse (net : NetResult WeatherData) : Except PyError WeatherData :=
  match net with
  | NetResult.response 200 data => Except.ok data
  | NetResult.response 400 _ => Except.error (PyError.valueError "Неверные параметры запроса")
  | NetResult.response 429 _ =>
      Except.error (PyError.valueError "Превышен лимит запросов. Попробуйте позже")
  | NetResult.response status _ =>
      if 500 ≤ status then Except.error (PyError.valueError "Ошибка сервера Open-Meteo")
      else Except.error (PyError.valueError ("Ошибка API: " ++ toString status))
  | NetResult.clientError e => Except.error (PyError.valueError ("Ошибка сети: " ++ e))

namespace WeatherProvider

/-- WeatherProvider.get_current_weather (src/weather/provider.py): issue
the current-conditions request for the coordinates and dispatch on the
response. The lang argument is accepted and unused, as in the source. -/
def get_current_weather (env : Env) (lat lon : Rat) (_lang : String) :
    Except PyError WeatherData :=
  handleWeatherResponse (env.currentNet lat lon)

/-- The parameters of the forecast request as built by
WeatherProvider.get_forecast: days is clamped to [1, 16] before the
request is issued. -/
def forecastRequest (lat lon : Rat) (days : Int) : ForecastParams :=
  { latitude := lat, longitude := lon, forecast_days := clampDays days }

/-- WeatherProvider.get_forecast (src/weather/provider.py): clamp the
day count, issue the forecast request, dispatch on the response. -/
def get_forecast (env : Env) (lat lon : Rat) (days : Int) (_lang : String) :
    Except PyError WeatherData :=
  handleWeatherResponse (env.forecastNet (forecastRequest lat lon days))

/-- WeatherProvider.geocode_location (src/weather/provider.py): on a 200
response take the first element of the results array and build the
display name (name, then overridden by name + admin1 when admin1 is
nonempty, then overridden by name + country when country is nonempty);
an empty results array, any other status, or a transport error yields
None rather than raising. -/
def geocode_location (env : Env) (cityName : String) : Option (Rat × Rat × String) :=
  match env.geocodeNet cityName with
  | NetResult.response 200 results =>
    match results with
    | [] => none
    | result :: _ =>
      let name := result.name.getD cityName
      let fullName := name
      let fullName := if result.admin1 ≠ "" then name ++ ", " ++ result.admin1 else fullName
      let fullName := if result.country ≠ "" then name ++ ", " ++ result.country else fullName
      some (result.latitude, result.longitude, fullName)
  | NetResult.response _ _ => none
  | NetResult.clientError _ => none

end WeatherProvider

/-- Model of Python's list-of-characters view of str.split(sep) for a
one-character separator: every maximal separator-free run, with empty
runs kept, never returning an empty list. -/
def splitChars (sep : Char) : List Char → List (List Char)
  | [] => [[]]
  | c :: rest =>
    match splitChars sep rest with
    | [] => if c = sep then [[], []] else [[c]]
    | cur :: more => if c = sep then [] :: cur :: more else (c :: cur) :: more

/-- Model of Python's str.strip(): drop whitespace from both ends. -/
def pyStrip (s : String) : String :=
  String.mk (((s.data.dropWhile Char.isWhitespace).reverse.dropWhile Char.isWhitespace).reverse)

/-- The comma branch of parse_location (src/server_remote.py): when the
string contains a comma, split on commas, strip the first two parts and
convert both with float(); a conversion failure (the caught ValueError)
and the no-comma case both yield None so control falls through to
geocoding. -/
def tryParseCoordinates (pyFloat : String → Option Rat) (loc : String) : Option (Rat × Rat) :=
  if loc.data.contains ',' then
    let parts := (splitChars ',' loc.data).map String.mk
    match pyFloat (pyStrip (parts.getD 0 "")), pyFloat (pyStrip (parts.getD 1 "")) with
    | some a, some b => some (a, b)
    | _, _ => none
  else none

/-- parse_location (src/server_remote.py): a truthy location string is
first comma-parsed, then geocoded; a falsy location (None or empty) or
the failure of both attempts yields the configured default
coordinate. -/
def parse_location (env : Env) (location : Option String) : Rat × Rat :=
  match location with
  | some loc =>
    if loc ≠ "" then
      match tryParseCoordinates env.pyFloat loc with
      | some p => p
      | none =>
        match WeatherProvider.geocode_location env loc with
        | some (la, lo, _) => (la, lo)
        | none => env.defaultCoord
    else env.defaultCoord
  | none => env.defaultCoord

/-- The argument bag of one tool call, with each key the dispatcher
reads: lat and lon hold the JSON numbers when both keys are present
(the branch float(arguments["lat"]), float(arguments["lon"])), location
the optional location string, days the optional integer day count, and
city_name the search_location argument. -/
structure ToolArgs where
  lat : Option Rat := none
  lon : Option Rat := none
  location : Option String := none
  days : Option Int := none
  city_name : Option String := none

/-- The coordinate-resolution snippet repeated at the top of the
get_current_weather and get_weather_forecast branches of call_tool
(src/server_remote.py): explicit lat/lon arguments are used directly,
otherwise parse_location runs on the optional location string. -/
def resolveCoordinates (env : Env) (args : ToolArgs) : Rat × Rat :=
  match args.lat, args.lon with
  | some la, some lo => (la, lo)
  | _, _ => parse_location env args.location

/-- A content block of the tool response (types.TextContent). -/
inductive Content where
  | text (s : String)
deriving DecidableEq

/-- The observable outcome of one call_tool invocation: the returned
content blocks, the cache state after the call, and how many upstream
weather fetches (get_current_weather / get_forecast awaits) the call
performed. -/
structure CallResult where
  content : List Content
  cache : WeatherCache
  weatherCalls : Nat

/-- The fetch-format-store sequence of the get_current_weather branch of
call_tool, run on a cache miss: fetch from the provider, format, store
under the current key; an error from provider or formatter aborts the
branch with the cache left as the lookup left it. The Nat component
counts the upstream weather fetch just performed. -/
def currentFetch (env : Env) (lat lon : Rat) (c : WeatherCache) :
    Except PyError (List Content) × WeatherCache × Nat :=
  match WeatherProvider.get_current_weather env lat lon env.defaultLang with
  | Except.ok data =>
    match env.formatCurrent data with
    | Except.ok formatted =>
      (Except.ok [Content.text formatted],
       WeatherCache.set c env.now lat lon formatted "current", 1)
    | Except.error e => (Except.error e, c, 1)
  | Except.error e => (Except.error e, c, 1)

/-- The fetch-format-store sequence of the get_weather_forecast branch
of call_tool, run on a cache miss; days arrives already clamped by the
branch. -/
def forecastFetch (env : Env) (lat lon : Rat) (days : Int) (c : WeatherCache) :
    Except PyError (List Content) × WeatherCache × Nat :=
  match WeatherProvider.get_forecast env lat lon days env.defaultLang with
  | Except.ok data =>
    match env.formatForecast data days with
    | Except.ok formatted =>
      (Except.ok [Content.text formatted],
       WeatherCache.set c env.now lat lon formatted ("forecast_" ++ toString days ++ "days"), 1)
    | Except.error e => (Except.error e, c, 1)
  | Except.error e => (Except.error e, c, 1)

/-- The get_current_weather branch of call_tool: resolve coordinates,
look the current key up, return a truthy cached text directly, and
otherwise fetch, format and store. -/
def currentToolCall (env : Env) (args : ToolArgs) (c0 : WeatherCache) :
    Except PyError (List Content) × WeatherCache × Nat :=
  let p := resolveCoordinates env args
  let g := WeatherCache.get c0 env.now p.1 p.2 "current"
  match g.1 with
  | some s => if s ≠ "" then (Except.ok [Content.text s], g.2, 0) else currentFetch env p.1 p.2 g.2
  | none => currentFetch env p.1 p.2 g.2

/-- The get_weather_forecast branch of call_tool: resolve coordinates,
clamp int(arguments.get("days", 3)), look the forecast_{days}days key
up, return a truthy cached text directly, and otherwise fetch, format
and store. -/
def forecastToolCall (env : Env) (args : ToolArgs) (c0 : WeatherCache) :
    Except PyError (List Content) × WeatherCache × Nat :=
  let p := resolveCoordinates env args
  let days := clampDays (args.days.getD 3)
  let g := WeatherCache.get c0 env.now p.1 p.2 ("forecast_" ++ toString days ++ "days")
  match g.1 with
  | some s => if s ≠ "" then (Except.ok [Content.text s], g.2, 0) else forecastFetch env p.1 p.2 days g.2
  | none => forecastFetch env p.1 p.2 days g.2

/-- The search_location branch of call_tool: a falsy city_name yields
the missing-argument text, a geocoding hit yields the coordinate block,
and a miss yields the not-found text; the cache is bypassed. -/
def searchToolCall (env : Env) (args : ToolArgs) (c0 : WeatherCache) :
    Except PyError (List Content) × WeatherCache × Nat :=
  let city := args.city_name.getD ""
  if city = "" then
    (Except.ok [Content.text "Ошибка: не указано название города"], c0, 0)
  else
    match WeatherProvider.geocode_location env city with
    | some (la, lo, fullName) =>
      (Except.ok [Content.text ("📍 " ++ fullName ++ "\nКоординаты: " ++ toString la ++ ", " ++ toString lo)], c0, 0)
    | none =>
      (Except.ok [Content.text ("Город \x27" ++ city ++ "\x27 не найден")], c0, 0)

/-- The try block of call_tool (src/server_remote.py): dispatch on the
tool name, raising ValueError for an unrecognized one. Each branch is
transcribed in its own definition above. -/
def call_tool_body (env : Env) (name : String) (args : ToolArgs) (c0 : WeatherCache) :
    Except PyError (List Content) × WeatherCache × Nat :=
  if name = "get_current_weather" then currentToolCall env args c0
  else if name = "get_weather_forecast" then forecastToolCall env args c0
  else if name = "search_location" then searchToolCall env args c0
  else (Except.error (PyError.valueError ("Неизвестный инструмент: " ++ name)), c0, 0)

/-- call_tool (src/server_remote.py): run the try block; a ValueError is
rendered as the labelled error text and any other exception as the
generic error text, each as a single text content block. Cache
mutations already performed by the body survive into the handlers, as
they do in the source. -/
def call_tool (env : Env) (name : String) (args : ToolArgs) (c0 : WeatherCache) : CallResult :=
  match call_tool_body env name args c0 with
  | (Except.ok content, c1, n) =>
    { content := content, cache := c1, weatherCalls := n }
  | (Except.error (PyError.valueError m), c1, n) =>
    { content := [Content.text ("Ошибка: " ++ m)], cache := c1, weatherCalls := n }
  | (Except.error (PyError.otherError m), c1, n) =>
    { content := [Content.text ("Произошла ошибка: " ++ m)], cache := c1, weatherCalls := n }

namespace Config

/-- Config.validate (src/config.py): raise ValueError when
YANDEX_API_KEY is falsy (the os.getenv default being the empty string),
otherwise do nothing. -/
def validate (yandexApiKey : String) : Except PyError Unit :=
  if yandexApiKey = "" then
    Except.error (PyError.valueError
      ("YANDEX_API_KEY не установлен. " ++ "Установите его в переменных окружения или в .env файле."))
  else Except.ok ()

end Config

/-- The startup validation performed during module initialization of
src/server_remote.py (the Open-Meteo variant): Config.validate() runs
before any component is constructed, with YANDEX_API_KEY read from the
environment and defaulting to the empty string. -/
def serverStartupValidation (envYandexApiKey : Option String) : Except PyError Unit :=
  Config.validate (envYandexApiKey.getD "")

/-! Concrete sample states used by witnesses and counterexamples. -/

/-- The cache key of the current-weather entry at coordinates (0.5, 0.5). -/
def probeKey : CacheKey := WeatherCache.make_key (1/2) (1/2) "current"

/-- A cache holding a single long-expired entry under probeKey. -/
def staleCache : WeatherCache :=
  { cache := fun k => if k = probeKey then some (0, "stale") else none, ttl := 600 }

/-- A cache holding a single fresh entry under probeKey whose stored
text is the empty string. -/
def emptyTextCache : WeatherCache :=
  { cache := fun k => if k = probeKey then some (900, "") else none, ttl := 600 }

/-- The empty cache with the default 600 second TTL. -/
def emptyCache : WeatherCache :=
  { cache := fun _ => none, ttl := 600 }

/-- A sample environment: float() conversion always fails, geocoding is
unreachable, every weather request is answered with HTTP 429, the
formatter echoes the payload, and the clock reads 1000. -/
def rateLimitEnv : Env :=
  { pyFloat := fun _ => none
    defaultCoord := (0, 0)
    geocodeNet := fun _ => NetResult.clientError "offline"
    currentNet := fun _ _ => NetResult.response 429 ""
    forecastNet := fun _ => NetResult.response 429 ""
    formatCurrent := fun d => Except.ok d
    formatForecast := fun d _ => Except.ok d
    now := 1000
    defaultLang := "ru_RU" }

/-- Arguments carrying the explicit coordinates (0.5, 0.5). -/
def coordArgs : ToolArgs := { lat := some (1/2), lon := some (1/2) }

/-- Arguments carrying only a location string. -/
def locationArgs : ToolArgs := { location := some "Moscow" }

/-! Theorems. -/

/-- C2. After set stores v at time tSet, a get at time tGet with
tGet - tSet ≤ ttl returns exactly v with the cache unchanged, and a get
with tGet - tSet > ttl returns none and removes the entry. -/
theorem cache_get_after_set (c : WeatherCache) (tSet tGet lat lon : Rat) (v ctype : String) :
    (tGet - tSet ≤ c.ttl →
      WeatherCache.get (WeatherCache.set c tSet lat lon v ctype) tGet lat lon ctype
        = (some v, WeatherCache.set c tSet lat lon v ctype)) ∧
    (tGet - tSet > c.ttl →
      (WeatherCache.get (WeatherCache.set c tSet lat lon v ctype) tGet lat lon ctype).1 = none ∧
      ((WeatherCache.get (WeatherCache.set c tSet lat lon v ctype) tGet lat lon ctype).2).cache
        (WeatherCache.make_key lat lon ctype) = none) := by
  have hk : (WeatherCache.set c tSet lat lon v ctype).cache (WeatherCache.make_key lat lon ctype)
      = some (tSet, v) := by
    simp [WeatherCache.set]
  have httl : (WeatherCache.set c tSet lat lon v ctype).ttl = c.ttl := rfl
  constructor
  · intro h
    simp only [WeatherCache.get, hk, httl]
    rw [if_neg (by simpa using not_lt.mpr h)]
  · intro h
    simp only [WeatherCache.get, hk, httl]
    rw [if_pos (by simpa using h)]
    simp

/-- Witness for C2 at a concrete instance: store "v" at time 0 in the
empty cache; a get at time 100 returns it, and a get at time 700
returns none and leaves no entry. -/
theorem cache_get_after_set_witness :
    ((100 : Rat) - 0 ≤ emptyCache.ttl ∧
      WeatherCache.get (WeatherCache.set emptyCache 0 (1/2) (1/2) "v" "current") 100 (1/2) (1/2) "current"
        = (some "v", WeatherCache.set emptyCache 0 (1/2) (1/2) "v" "current")) ∧
    ((700 : Rat) - 0 > emptyCache.ttl ∧
      (WeatherCache.get (WeatherCache.set emptyCache 0 (1/2) (1/2) "v" "current") 700 (1/2) (1/2) "current").1 = none ∧
      ((WeatherCache.get (WeatherCache.set emptyCache 0 (1/2) (1/2) "v" "current") 700 (1/2) (1/2) "current").2).cache
        (WeatherCache.make_key (1/2) (1/2) "current") = none) :=
  ⟨⟨by norm_num [emptyCache],
    (cache_get_after_set emptyCache 0 100 (1/2) (1/2) "v" "current").1 (by norm_num [emptyCache])⟩,
   ⟨by norm_num [emptyCache],
    (cache_get_after_set emptyCache 0 700 (1/2) (1/2) "v" "current").2 (by norm_num [emptyCache])⟩⟩

/-- C7. cleanup removes exactly the expired entries: an entry with
now - insertedAt > ttl is deleted, an entry with now - insertedAt ≤ ttl
keeps its timestamp and value, and an absent key stays absent. -/
theorem cleanup_removes_exactly_expired (c : WeatherCache) (now : Rat) (k : CacheKey)
    (ts : Rat) (v : String) (h : c.cache k = some (ts, v)) :
    ((now - ts > c.ttl → (WeatherCache.cleanup c now).cache k = none) ∧
     (now - ts ≤ c.ttl → (WeatherCache.cleanup c now).cache k = some (ts, v))) ∧
    (∀ k2, c.cache k2 = none → (WeatherCache.cleanup c now).cache k2 = none) := by
  refine ⟨⟨?_, ?_⟩, ?_⟩
  · intro hexp
    simp [WeatherCache.cleanup, h, hexp]
  · intro hfresh
    simp [WeatherCache.cleanup, h]
    linarith
  · intro k2 h2
    simp [WeatherCache.cleanup, h2]

/-- Witness for C7 at a concrete instance: the single entry inserted at
time 0 with TTL 600 is removed by a cleanup at time 1000 and kept, with
the same timestamp and value, by a cleanup at time 500. -/
theorem cleanup_removes_exactly_expired_witness :
    staleCache.cache probeKey = some (0, "stale") ∧
    ((1000 : Rat) - 0 > staleCache.ttl ∧
      (WeatherCache.cleanup staleCache 1000).cache probeKey = none) ∧
    ((500 : Rat) - 0 ≤ staleCache.ttl ∧
      (WeatherCache.cleanup staleCache 500).cache probeKey = some (0, "stale")) :=
  ⟨by simp [staleCache],
   ⟨by norm_num [staleCache],
    ((cleanup_removes_exactly_expired staleCache 1000 probeKey 0 "stale" (by simp [staleCache])).1).1
      (by norm_num [staleCache])⟩,
   ⟨by norm_num [staleCache],
    ((cleanup_removes_exactly_expired staleCache 500 probeKey 0 "stale" (by simp [staleCache])).1).2
      (by norm_num [staleCache])⟩⟩

/-- C4. The day count placed in the upstream forecast request is the
clamp of the requested one to [1, 16]; in particular a request for 0
days issues a 1-day request and a request for 30 days a 16-day one. -/
theorem forecast_days_clamped (lat lon : Rat) (days : Int) :
    (WeatherProvider.forecastRequest lat lon days).forecast_days = clampDays days ∧
    1 ≤ (WeatherProvider.forecastRequest lat lon days).forecast_days ∧
    (WeatherProvider.forecastRequest lat lon days).forecast_days ≤ 16 ∧
    (WeatherProvider.forecastRequest lat lon 0).forecast_days = 1 ∧
    (WeatherProvider.forecastRequest lat lon 30).forecast_days = 16 := by
  refine ⟨rfl, ?_, ?_, ?_, ?_⟩ <;>
    simp only [WeatherProvider.forecastRequest, clampDays] <;> omega

/-- C8. The startup validation that src/server_remote.py (the Open-Meteo
variant) runs at module initialization raises a ValueError when no
YANDEX_API_KEY is present in the environment, so startup of this variant
fails without an API key even though the Open-Meteo provider never uses
one. -/
theorem startup_validation_fails_without_api_key :
    serverStartupValidation none
      = Except.error (PyError.valueError
          "YANDEX_API_KEY не установлен. Установите его в переменных окружения или в .env файле.") := by
  rfl

/-- Evaluation helper: a nonnegative coordinate whose ten-thousandth
multiple lies in [n, n + 1/2) formats with no sign and magnitude n. -/
theorem fmtDot4_round_down (x : Rat) (n : Int) (hx : 0 ≤ x)
    (h1 : (n : Rat) ≤ x * 10000) (h2 : x * 10000 < (n : Rat) + 1/2) :
    fmtDot4 x = (false, n) := by
  have hfl : Int.floor (x * 10000) = n := Int.floor_eq_iff.mpr ⟨h1, by linarith⟩
  have habs : |x| = x := abs_of_nonneg hx
  have hdec : decide (x < 0) = false := decide_eq_false (not_lt.mpr hx)
  simp only [fmtDot4, roundHalfEven, habs, hfl, hdec]
  rw [if_pos (by linarith)]

/-- Evaluation helper: a nonnegative coordinate whose ten-thousandth
multiple lies in (n + 1/2, n + 1) formats with no sign and magnitude
n + 1. -/
theorem fmtDot4_round_up (x : Rat) (n : Int) (hx : 0 ≤ x)
    (h1 : (n : Rat) + 1/2 < x * 10000) (h2 : x * 10000 < (n : Rat) + 1) :
    fmtDot4 x = (false, n + 1) := by
  have hfl : Int.floor (x * 10000) = n := Int.floor_eq_iff.mpr ⟨by linarith, h2⟩
  have habs : |x| = x := abs_of_nonneg hx
  have hdec : decide (x < 0) = false := decide_eq_false (not_lt.mpr hx)
  simp only [fmtDot4, roundHalfEven, habs, hfl, hdec]
  rw [if_neg (by linarith), if_pos (by linarith)]

/-- C5 counterexample. The latitudes 0.00004 and 0.00006 agree in sign
and in every decimal digit up to and including the fourth decimal place
(both truncate to 0.0000, as the equal floors of their ten-thousandth
multiples state), yet _make_key separates them, because the .4f
formatting rounds at the fifth digit: 0.00004 formats as 0.0000 and
0.00006 as 0.0001. -/
theorem make_key_beyond_fourth_decimal_counterexample :
    (0 : Rat) ≤ 4/100000 ∧ (0 : Rat) ≤ 6/100000 ∧
    Int.floor (((4 : Rat)/100000) * 10000) = Int.floor (((6 : Rat)/100000) * 10000) ∧
    WeatherCache.make_key (4/100000) 0 "current" ≠ WeatherCache.make_key (6/100000) 0 "current" := by
  have h4 : fmtDot4 ((4 : Rat)/100000) = (false, 0) :=
    fmtDot4_round_down _ 0 (by norm_num) (by norm_num) (by norm_num)
  have h6 : fmtDot4 ((6 : Rat)/100000) = (false, (0 : Int) + 1) :=
    fmtDot4_round_up _ 0 (by norm_num) (by norm_num) (by norm_num)
  refine ⟨by norm_num, by norm_num, ?_, ?_⟩
  · have f4 : Int.floor (((4 : Rat)/100000) * 10000) = 0 :=
      Int.floor_eq_iff.mpr ⟨by norm_num, by norm_num⟩
    have f6 : Int.floor (((6 : Rat)/100000) * 10000) = 0 :=
      Int.floor_eq_iff.mpr ⟨by norm_num, by norm_num⟩
    rw [f4, f6]
  · simp [WeatherCache.make_key, h4, h6]

/-- C5 amended. Two coordinate pairs whose latitudes and whose
longitudes produce the same text under the .4f formatting (same sign
and same value rounded to four decimal places) yield the same cache key
for the same kind and variant, and so collide onto one entry. -/
theorem make_key_collides_on_equal_rounding (lat1 lon1 lat2 lon2 : Rat) (ctype : String)
    (hlat : fmtDot4 lat1 = fmtDot4 lat2) (hlon : fmtDot4 lon1 = fmtDot4 lon2) :
    WeatherCache.make_key lat1 lon1 ctype = WeatherCache.make_key lat2 lon2 ctype := by
  simp [WeatherCache.make_key, hlat, hlon]

/-- Witness for the amended C5: 1.00001 and 1.00002 differ only beyond
the fourth decimal place and format identically, so the keys coincide. -/
theorem make_key_collides_on_equal_rounding_witness :
    fmtDot4 (100001/100000) = fmtDot4 (100002/100000) ∧
    WeatherCache.make_key (100001/100000) 0 "current"
      = WeatherCache.make_key (100002/100000) 0 "current" := by
  have h1 : fmtDot4 ((100001 : Rat)/100000) = (false, 10000) :=
    fmtDot4_round_down _ 10000 (by norm_num) (by norm_num) (by norm_num)
  have h2 : fmtDot4 ((100002 : Rat)/100000) = (false, 10000) :=
    fmtDot4_round_down _ 10000 (by norm_num) (by norm_num) (by norm_num)
  have heq : fmtDot4 ((100001 : Rat)/100000) = fmtDot4 ((100002 : Rat)/100000) := by
    rw [h1, h2]
  exact ⟨heq,
    make_key_collides_on_equal_rounding (100001/100000) 0 (100002/100000) 0 "current" heq rfl⟩

/-! Helper lemmas about the cache lookup and the dispatcher plumbing,
shared by the dispatcher theorems below. -/

/-- A fresh entry is returned by get with the cache unchanged. -/
theorem WeatherCache.get_of_fresh (c : WeatherCache) (now lat lon : Rat) (t : String)
    (ts : Rat) (v : String) (h : c.cache (WeatherCache.make_key lat lon t) = some (ts, v))
    (hf : ¬(now - ts > c.ttl)) :
    WeatherCache.get c now lat lon t = (some v, c) := by
  simp [WeatherCache.get, h, hf]

/-- A stale entry makes get return none and delete the key. -/
theorem WeatherCache.get_of_stale (c : WeatherCache) (now lat lon : Rat) (t : String)
    (ts : Rat) (v : String) (h : c.cache (WeatherCache.make_key lat lon t) = some (ts, v))
    (hs : now - ts > c.ttl) :
    WeatherCache.get c now lat lon t =
      (none, { c with cache := fun k => if k = WeatherCache.make_key lat lon t then none else c.cache k }) := by
  simp [WeatherCache.get, h, hs]

/-- An absent key makes get return none with the cache unchanged. -/
theorem WeatherCache.get_of_absent (c : WeatherCache) (now lat lon : Rat) (t : String)
    (h : c.cache (WeatherCache.make_key lat lon t) = none) :
    WeatherCache.get c now lat lon t = (none, c) := by
  simp [WeatherCache.get, h]

/-- get never adds an entry: after a lookup every key holds either what
it held before or nothing. -/
theorem WeatherCache.get_no_new_entries (c : WeatherCache) (now lat lon : Rat) (t : String)
    (k : CacheKey) :
    ((WeatherCache.get c now lat lon t).2).cache k = c.cache k ∨
    ((WeatherCache.get c now lat lon t).2).cache k = none := by
  unfold WeatherCache.get
  rcases hc : c.cache (WeatherCache.make_key lat lon t) with _ | ⟨ts, v⟩
  · simp [hc]
  · simp only [hc]
    by_cases hs : now - ts > c.ttl
    · rw [if_pos hs]
      by_cases hk : k = WeatherCache.make_key lat lon t
      · right; simp [hk]
      · left; simp [hk]
    · rw [if_neg hs]
      left; rfl

/-- Unfolding call_tool when the body returns normally. -/
theorem call_tool_of_body_ok (env : Env) (name : String) (args : ToolArgs)
    (c0 : WeatherCache) (l : List Content) (c1 : WeatherCache) (n : Nat)
    (h : call_tool_body env name args c0 = (Except.ok l, c1, n)) :
    call_tool env name args c0 = { content := l, cache := c1, weatherCalls := n } := by
  unfold call_tool
  rw [h]

/-- Unfolding call_tool when the body raises a ValueError. -/
theorem call_tool_of_body_valueError (env : Env) (name : String) (args : ToolArgs)
    (c0 : WeatherCache) (m : String) (c1 : WeatherCache) (n : Nat)
    (h : call_tool_body env name args c0 = (Except.error (PyError.valueError m), c1, n)) :
    call_tool env name args c0
      = { content := [Content.text ("Ошибка: " ++ m)], cache := c1, weatherCalls := n } := by
  unfold call_tool
  rw [h]

/-- Unfolding call_tool when the body raises any other exception. -/
theorem call_tool_of_body_otherError (env : Env) (name : String) (args : ToolArgs)
    (c0 : WeatherCache) (m : String) (c1 : WeatherCache) (n : Nat)
    (h : call_tool_body env name args c0 = (Except.error (PyError.otherError m), c1, n)) :
    call_tool env name args c0
      = { content := [Content.text ("Произошла ошибка: " ++ m)], cache := c1, weatherCalls := n } := by
  unfold call_tool
  rw [h]

/-- The fetch sequence of the current-weather branch returns either a
single text block or an error, always after exactly one upstream
fetch. -/
theorem currentFetch_shape (env : Env) (lat lon : Rat) (c : WeatherCache) :
    (∃ s c2, currentFetch env lat lon c = (Except.ok [Content.text s], c2, 1)) ∨
    (∃ e, currentFetch env lat lon c = (Except.error e, c, 1)) := by
  unfold currentFetch
  rcases hw : WeatherProvider.get_current_weather env lat lon env.defaultLang with e | d
  · right; exact ⟨e, rfl⟩
  · dsimp only
    rcases hf : env.formatCurrent d with e | formatted
    · right; exact ⟨e, rfl⟩
    · left; exact ⟨formatted, _, rfl⟩

/-- The fetch sequence of the forecast branch returns either a single
text block or an error, always after exactly one upstream fetch. -/
theorem forecastFetch_shape (env : Env) (lat lon : Rat) (days : Int) (c : WeatherCache) :
    (∃ s c2, forecastFetch env lat lon days c = (Except.ok [Content.text s], c2, 1)) ∨
    (∃ e, forecastFetch env lat lon days c = (Except.error e, c, 1)) := by
  unfold forecastFetch
  rcases hw : WeatherProvider.get_forecast env lat lon days env.defaultLang with e | d
  · right; exact ⟨e, rfl⟩
  · dsimp only
    rcases hf : env.formatForecast d days with e | formatted
    · right; exact ⟨e, rfl⟩
    · left; exact ⟨formatted, _, rfl⟩

/-- The current-weather branch yields a single text block or an error. -/
theorem currentToolCall_shape (env : Env) (args : ToolArgs) (c0 : WeatherCache) :
    (∃ s c2 n, currentToolCall env args c0 = (Except.ok [Content.text s], c2, n)) ∨
    (∃ e c2 n, currentToolCall env args c0 = (Except.error e, c2, n)) := by
  unfold currentToolCall
  rcases hg : (WeatherCache.get c0 env.now (resolveCoordinates env args).1
      (resolveCoordinates env args).2 "current").1 with _ | s
  · simp only [hg]
    rcases currentFetch_shape env (resolveCoordinates env args).1 (resolveCoordinates env args).2
        (WeatherCache.get c0 env.now (resolveCoordinates env args).1
          (resolveCoordinates env args).2 "current").2 with ⟨s, c2, hf⟩ | ⟨e, hf⟩
    · left; exact ⟨s, c2, 1, hf⟩
    · right; exact ⟨e, _, 1, hf⟩
  · simp only [hg]
    by_cases hs : s = ""
    · rw [if_neg (by simp [hs])]
      rcases currentFetch_shape env (resolveCoordinates env args).1 (resolveCoordinates env args).2
          (WeatherCache.get c0 env.now (resolveCoordinates env args).1
            (resolveCoordinates env args).2 "current").2 with ⟨s2, c2, hf⟩ | ⟨e, hf⟩
      · left; exact ⟨s2, c2, 1, hf⟩
      · right; exact ⟨e, _, 1, hf⟩
    · rw [if_pos (by simp [hs])]
      left; exact ⟨s, _, 0, rfl⟩

/-- The forecast branch yields a single text block or an error. -/
theorem forecastToolCall_shape (env : Env) (args : ToolArgs) (c0 : WeatherCache) :
    (∃ s c2 n, forecastToolCall env args c0 = (Except.ok [Content.text s], c2, n)) ∨
    (∃ e c2 n, forecastToolCall env args c0 = (Except.error e, c2, n)) := by
  unfold forecastToolCall
  rcases hg : (WeatherCache.get c0 env.now (resolveCoordinates env args).1
      (resolveCoordinates env args).2
      ("forecast_" ++ toString (clampDays (args.days.getD 3)) ++ "days")).1 with _ | s
  · simp only [hg]
    rcases forecastFetch_shape env (resolveCoordinates env args).1 (resolveCoordinates env args).2
        (clampDays (args.days.getD 3))
        (WeatherCache.get c0 env.now (resolveCoordinates env args).1
          (resolveCoordinates env args).2
          ("forecast_" ++ toString (clampDays (args.days.getD 3)) ++ "days")).2 with
      ⟨s, c2, hf⟩ | ⟨e, hf⟩
    · left; exact ⟨s, c2, 1, hf⟩
    · right; exact ⟨e, _, 1, hf⟩
  · simp only [hg]
    by_cases hs : s = ""
    · rw [if_neg (by simp [hs])]
      rcases forecastFetch_shape env (resolveCoordinates env args).1 (resolveCoordinates env args).2
          (clampDays (args.days.getD 3))
          (WeatherCache.get c0 env.now (resolveCoordinates env args).1
            (resolveCoordinates env args).2
            ("forecast_" ++ toString (clampDays (args.days.getD 3)) ++ "days")).2 with
        ⟨s2, c2, hf⟩ | ⟨e, hf⟩
      · left; exact ⟨s2, c2, 1, hf⟩
      · right; exact ⟨e, _, 1, hf⟩
    · rw [if_pos (by simp [hs])]
      left; exact ⟨s, _, 0, rfl⟩

/-- The search branch always yields a single text block. -/
theorem searchToolCall_shape (env : Env) (args : ToolArgs) (c0 : WeatherCache) :
    ∃ s, searchToolCall env args c0 = (Except.ok [Content.text s], c0, 0) := by
  unfold searchToolCall
  by_cases hc : args.city_name.getD "" = ""
  · rw [if_pos hc]; exact ⟨_, rfl⟩
  · rw [if_neg hc]
    rcases hg : WeatherProvider.geocode_location env (args.city_name.getD "") with _ | ⟨la, lo, fullName⟩
    · exact ⟨_, rfl⟩
    · exact ⟨_, rfl⟩

/-- The try block of the dispatcher returns a single text block or an
error, for every tool name and argument bag. -/
theorem call_tool_body_shape (env : Env) (name : String) (args : ToolArgs) (c0 : WeatherCache) :
    (∃ s c2 n, call_tool_body env name args c0 = (Except.ok [Content.text s], c2, n)) ∨
    (∃ e c2 n, call_tool_body env name args c0 = (Except.error e, c2, n)) := by
  unfold call_tool_body
  split_ifs with h1 h2 h3
  · exact currentToolCall_shape env args c0
  · exact forecastToolCall_shape env args c0
  · rcases searchToolCall_shape env args c0 with ⟨s, hs⟩
    exact Or.inl ⟨s, c0, 0, hs⟩
  · exact Or.inr ⟨_, c0, 0, rfl⟩

/-- C1. call_tool never raises: for every tool name, argument bag,
cache state and environment (hence for every outcome of the resolver,
the upstream client and the formatter, and for unrecognized tool
names), it returns normally with exactly one text content block. -/
theorem call_tool_single_content_block (env : Env) (name : String) (args : ToolArgs)
    (c0 : WeatherCache) :
    ∃ s, (call_tool env name args c0).content = [Content.text s] := by
  rcases call_tool_body_shape env name args c0 with ⟨s, c2, n, hb⟩ | ⟨e, c2, n, hb⟩
  · exact ⟨s, by rw [call_tool_of_body_ok env name args c0 _ c2 n hb]⟩
  · rcases e with m | m
    · exact ⟨"Ошибка: " ++ m, by rw [call_tool_of_body_valueError env name args c0 m c2 n hb]⟩
    · exact ⟨"Произошла ошибка: " ++ m,
        by rw [call_tool_of_body_otherError env name args c0 m c2 n hb]⟩

/-- C3. The resolver is total and falls back to the configured default:
with explicit lat/lon arguments it returns them directly, and otherwise,
whenever the comma-parse attempt and the geocoding lookup both fall
through for whatever location string is present (including no string at
all), it returns the configured default coordinate. -/
theorem resolver_never_fails (env : Env) (args : ToolArgs) :
    (∀ la lo, args.lat = some la → args.lon = some lo →
      resolveCoordinates env args = (la, lo)) ∧
    ((args.lat = none ∨ args.lon = none) →
      (∀ s, args.location = some s →
        tryParseCoordinates env.pyFloat s = none ∧
        WeatherProvider.geocode_location env s = none) →
      resolveCoordinates env args = env.defaultCoord) := by
  constructor
  · intro la lo h1 h2
    unfold resolveCoordinates
    rw [h1, h2]
  · intro hnone hfall
    have hploc : parse_location env args.location = env.defaultCoord := by
      unfold parse_location
      cases hl : args.location with
      | none => rfl
      | some loc =>
        rcases hfall loc hl with ⟨hp, hg⟩
        by_cases hloc : loc = ""
        · simp [hloc]
        · simp [hloc, hp, hg]
    unfold resolveCoordinates
    rcases hnone with h | h
    · rw [h]
      exact hploc
    · rw [h]
      cases hl : args.lat with
      | none => exact hploc
      | some la => exact hploc

/-- Witness for C3: with a location string that has no comma, a float
conversion that always fails and an unreachable geocoder, the resolver
returns the configured default coordinate. -/
theorem resolver_never_fails_witness :
    (locationArgs.lat = none ∨ locationArgs.lon = none) ∧
    resolveCoordinates rateLimitEnv locationArgs = rateLimitEnv.defaultCoord :=
  ⟨Or.inl rfl,
   (resolver_never_fails rateLimitEnv locationArgs).2 (Or.inl rfl) (fun s hs => by
     have hs2 : some "Moscow" = some s := hs
     cases hs2
     constructor
     · unfold tryParseCoordinates
       split
       · rfl
       · rfl
     · rfl)⟩

/-- A falsy cached value (absent key or stored empty string) sends the
current-weather branch into the fetch sequence on the post-lookup
cache. -/
theorem currentToolCall_of_falsy_cache (env : Env) (args : ToolArgs) (c0 : WeatherCache)
    (lat lon : Rat) (hll : resolveCoordinates env args = (lat, lon))
    (hmiss : ((WeatherCache.get c0 env.now lat lon "current").1).getD "" = "") :
    currentToolCall env args c0
      = currentFetch env lat lon ((WeatherCache.get c0 env.now lat lon "current").2) := by
  simp only [currentToolCall, hll]
  rcases hg : (WeatherCache.get c0 env.now lat lon "current").1 with _ | s
  · rfl
  · rw [hg] at hmiss
    have hs : s = "" := by simpa using hmiss
    subst hs
    simp

/-- A 429 upstream response makes the current-weather fetch sequence
raise the rate-limit ValueError with the cache untouched. -/
theorem currentFetch_rate_limited (env : Env) (lat lon : Rat) (c : WeatherCache)
    (b : WeatherData) (h : env.currentNet lat lon = NetResult.response 429 b) :
    currentFetch env lat lon c =
      (Except.error (PyError.valueError "Превышен лимит запросов. Попробуйте позже"), c, 1) := by
  unfold currentFetch WeatherProvider.get_current_weather
  rw [h]
  simp [handleWeatherResponse]

/-- The dispatcher invocation count equals the one of its try block. -/
theorem call_tool_weatherCalls (env : Env) (name : String) (args : ToolArgs)
    (c0 : WeatherCache) :
    (call_tool env name args c0).weatherCalls = (call_tool_body env name args c0).2.2 := by
  unfold call_tool
  rcases hb : call_tool_body env name args c0 with ⟨r, c1, n⟩
  rcases r with m | l
  · rcases m with m | m <;> rfl
  · rfl

/-- The fetch sequence always performs exactly one upstream fetch. -/
theorem currentFetch_weatherCalls (env : Env) (lat lon : Rat) (c : WeatherCache) :
    (currentFetch env lat lon c).2.2 = 1 := by
  rcases currentFetch_shape env lat lon c with ⟨s, c2, hf⟩ | ⟨e, hf⟩ <;> rw [hf]

/-- On a cache miss of the current key and a 429 upstream response, the
whole dispatcher call returns the rate-limit error block with the
post-lookup cache and one upstream fetch. -/
theorem call_tool_current_429 (env : Env) (args : ToolArgs) (c : WeatherCache)
    (lat lon : Rat) (b : WeatherData)
    (hll : resolveCoordinates env args = (lat, lon))
    (hmiss : ((WeatherCache.get c env.now lat lon "current").1).getD "" = "")
    (h429 : env.currentNet lat lon = NetResult.response 429 b) :
    call_tool env "get_current_weather" args c =
      { content := [Content.text ("Ошибка: " ++ "Превышен лимит запросов. Попробуйте позже")],
        cache := (WeatherCache.get c env.now lat lon "current").2,
        weatherCalls := 1 } := by
  have h1 := currentToolCall_of_falsy_cache env args c lat lon hll hmiss
  have h2 := currentFetch_rate_limited env lat lon
    ((WeatherCache.get c env.now lat lon "current").2) b h429
  have hb : call_tool_body env "get_current_weather" args c
      = (Except.error (PyError.valueError "Превышен лимит запросов. Попробуйте позже"),
         (WeatherCache.get c env.now lat lon "current").2, 1) := by
    have hb0 : call_tool_body env "get_current_weather" args c = currentToolCall env args c := rfl
    rw [hb0, h1, h2]
  exact call_tool_of_body_valueError env "get_current_weather" args c _ _ _ hb

/-- C6 counterexample. With a stale entry stored under the requested
key, a call answered upstream with HTTP 429 does return the rate-limit
error text, but the cache state is not unchanged: the lookup's lazy
eviction removes the stale entry before the 429 is seen. -/
theorem rate_limited_cache_changed_counterexample :
    (call_tool rateLimitEnv "get_current_weather" coordArgs staleCache).content
      = [Content.text ("Ошибка: " ++ "Превышен лимит запросов. Попробуйте позже")] ∧
    staleCache.cache probeKey = some (0, "stale") ∧
    (call_tool rateLimitEnv "get_current_weather" coordArgs staleCache).cache.cache probeKey
      = none := by
  have hll : resolveCoordinates rateLimitEnv coordArgs = (1/2, 1/2) := rfl
  have hstale : staleCache.cache (WeatherCache.make_key (1/2) (1/2) "current")
      = some (0, "stale") := by
    simp [staleCache, probeKey]
  have hs : rateLimitEnv.now - 0 > staleCache.ttl := by norm_num [rateLimitEnv, staleCache]
  have hget := WeatherCache.get_of_stale staleCache rateLimitEnv.now (1/2) (1/2) "current"
    0 "stale" hstale hs
  have hmiss : ((WeatherCache.get staleCache rateLimitEnv.now (1/2) (1/2) "current").1).getD ""
      = "" := by
    rw [hget]
    rfl
  have h429 : rateLimitEnv.currentNet (1/2) (1/2) = NetResult.response 429 "" := rfl
  have hcall := call_tool_current_429 rateLimitEnv coordArgs staleCache (1/2) (1/2) ""
    hll hmiss h429
  refine ⟨by rw [hcall], by simp [staleCache], ?_⟩
  rw [hcall]
  simp only [hget]
  simp [probeKey]

/-- C6 amended. When the upstream weather request returns HTTP 429 (on
a cache miss, so that a request is issued at all), the dispatcher's
response is the rate-limited error text rather than a generic failure,
and no entry is written to the cache: the cache after the call is
exactly the post-lookup cache, whose every key holds what it held
before the call or nothing — the only possible change is the lazy
eviction of an expired entry during the lookup. -/
theorem rate_limited_error_no_cache_write (env : Env) (args : ToolArgs) (c : WeatherCache)
    (lat lon : Rat) (b : WeatherData)
    (hll : resolveCoordinates env args = (lat, lon))
    (hmiss : ((WeatherCache.get c env.now lat lon "current").1).getD "" = "")
    (h429 : env.currentNet lat lon = NetResult.response 429 b) :
    (call_tool env "get_current_weather" args c).content
      = [Content.text ("Ошибка: " ++ "Превышен лимит запросов. Попробуйте позже")] ∧
    (call_tool env "get_current_weather" args c).cache
      = (WeatherCache.get c env.now lat lon "current").2 ∧
    (∀ k, (call_tool env "get_current_weather" args c).cache.cache k = c.cache k ∨
          (call_tool env "get_current_weather" args c).cache.cache k = none) := by
  have hcall := call_tool_current_429 env args c lat lon b hll hmiss h429
  refine ⟨by rw [hcall], by rw [hcall], ?_⟩
  intro k
  rw [hcall]
  exact WeatherCache.get_no_new_entries c env.now lat lon "current" k

/-- Witness for the amended C6: empty cache, explicit coordinates, 429
upstream; the call answers with the rate-limit text and writes
nothing. -/
theorem rate_limited_error_no_cache_write_witness :
    resolveCoordinates rateLimitEnv coordArgs = (1/2, 1/2) ∧
    ((WeatherCache.get emptyCache rateLimitEnv.now (1/2) (1/2) "current").1).getD "" = "" ∧
    rateLimitEnv.currentNet (1/2) (1/2) = NetResult.response 429 "" ∧
    (call_tool rateLimitEnv "get_current_weather" coordArgs emptyCache).content
      = [Content.text ("Ошибка: " ++ "Превышен лимит запросов. Попробуйте позже")] ∧
    (∀ k, (call_tool rateLimitEnv "get_current_weather" coordArgs emptyCache).cache.cache k
        = emptyCache.cache k ∨
      (call_tool rateLimitEnv "get_current_weather" coordArgs emptyCache).cache.cache k
        = none) := by
  have hmain := rate_limited_error_no_cache_write rateLimitEnv coordArgs emptyCache
    (1/2) (1/2) "" rfl rfl rfl
  exact ⟨rfl, rfl, rfl, hmain.1, hmain.2.2⟩

/-- C9. The dispatcher tests the cached value for truthiness, not
presence: with a fresh cache entry whose stored text is the empty
string, get does return the stored value, yet the call still performs
an upstream fetch. -/
theorem empty_cached_value_refetches (env : Env) (args : ToolArgs) (c : WeatherCache)
    (ts lat lon : Rat)
    (hll : resolveCoordinates env args = (lat, lon))
    (hc : c.cache (WeatherCache.make_key lat lon "current") = some (ts, ""))
    (hfresh : ¬(env.now - ts > c.ttl)) :
    (WeatherCache.get c env.now lat lon "current").1 = some "" ∧
    (call_tool env "get_current_weather" args c).weatherCalls = 1 := by
  have hget := WeatherCache.get_of_fresh c env.now lat lon "current" ts "" hc hfresh
  have hmiss : ((WeatherCache.get c env.now lat lon "current").1).getD "" = "" := by
    rw [hget]
    rfl
  have h1 := currentToolCall_of_falsy_cache env args c lat lon hll hmiss
  constructor
  · rw [hget]
  · rw [call_tool_weatherCalls]
    have hb0 : call_tool_body env "get_current_weather" args c = currentToolCall env args c := rfl
    rw [hb0, h1]
    exact currentFetch_weatherCalls env lat lon _

/-- Witness for C9: a fresh empty-string entry under the probe key is
returned by get, and the call still fetches upstream once. -/
theorem empty_cached_value_refetches_witness :
    resolveCoordinates rateLimitEnv coordArgs = (1/2, 1/2) ∧
    emptyTextCache.cache (WeatherCache.make_key (1/2) (1/2) "current") = some (900, "") ∧
    ¬(rateLimitEnv.now - 900 > emptyTextCache.ttl) ∧
    (WeatherCache.get emptyTextCache rateLimitEnv.now (1/2) (1/2) "current").1 = some "" ∧
    (call_tool rateLimitEnv "get_current_weather" coordArgs emptyTextCache).weatherCalls = 1 := by
  have h2 : emptyTextCache.cache (WeatherCache.make_key (1/2) (1/2) "current")
      = some (900, "") := by
    simp [emptyTextCache, probeKey]
  have h3 : ¬(rateLimitEnv.now - 900 > emptyTextCache.ttl) := by
    norm_num [rateLimitEnv, emptyTextCache]
  have hmain := empty_cached_value_refetches rateLimitEnv coordArgs emptyTextCache
    900 (1/2) (1/2) rfl h2 h3
  exact ⟨rfl, h2, h3, hmain.1, hmain.2⟩

/-- C10. The forecast cache variant string is derived from the day
count after clamping: two requested day values with the same clamp make
the whole dispatcher call behave identically — same content, same cache
reads and writes, same number of upstream fetches. -/
theorem forecast_same_clamp_same_cache_entry (env : Env) (c : WeatherCache) (args : ToolArgs)
    (d1 d2 : Int) (h : clampDays d1 = clampDays d2) :
    call_tool env "get_weather_forecast" { args with days := some d1 } c
      = call_tool env "get_weather_forecast" { args with days := some d2 } c := by
  have hrc : ∀ d : Int, resolveCoordinates env { args with days := some d }
      = resolveCoordinates env args := fun d => rfl
  have hft : forecastToolCall env { args with days := some d1 } c
      = forecastToolCall env { args with days := some d2 } c := by
    simp only [forecastToolCall, hrc]
    have hd1 : ({ args with days := some d1 } : ToolArgs).days.getD 3 = d1 := rfl
    have hd2 : ({ args with days := some d2 } : ToolArgs).days.getD 3 = d2 := rfl
    rw [hd1, hd2, h]
  have hb1 : call_tool_body env "get_weather_forecast" { args with days := some d1 } c
      = forecastToolCall env { args with days := some d1 } c := rfl
  have hb2 : call_tool_body env "get_weather_forecast" { args with days := some d2 } c
      = forecastToolCall env { args with days := some d2 } c := rfl
  unfold call_tool
  rw [hb1, hb2, hft]

/-- Witness for C10: requesting 0 and 1 forecast days clamps equally,
so the two calls coincide in full. -/
theorem forecast_same_clamp_same_cache_entry_witness :
    clampDays 0 = clampDays 1 ∧
    call_tool rateLimitEnv "get_weather_forecast" { coordArgs with days := some 0 } emptyCache
      = call_tool rateLimitEnv "get_weather_forecast" { coordArgs with days := some 1 } emptyCache :=
  ⟨by unfold clampDays; omega,
   forecast_same_clamp_same_cache_entry rateLimitEnv emptyCache coordArgs 0 1
     (by unfold clampDays; omega)⟩

end MCPWeather
